import Mathlib

/-!
Verification of the PHP binding generator's type-oracle and naming layer
(`src/bindgen/src/gen_php/mod.rs`), shallowly embedded in Lean.

The embedding keeps the source's names.  Case conversion is performed in the
source by the `heck` crate; an ASCII model of heck's algorithm (word
segmentation on non-alphanumerics and camel boundaries, then per-word
recasing) is given first.
-/

/-- Scanner mode of heck's word-boundary algorithm (`WordMode` in heck). -/
inductive CamelMode
  | boundary
  | lower
  | upper
deriving DecidableEq, Repr

/-- ASCII model of heck's in-word camel splitting: a boundary falls after a
lowercase-mode character followed by an uppercase one, and before the last
uppercase of an uppercase run that is followed by a lowercase one. -/
def splitCamelGo : CamelMode → List Char → List Char → List (List Char)
  | _, _, [] => []
  | _, acc, [c] => [acc ++ [c]]
  | mode, acc, c :: next :: rest =>
    let nextMode : CamelMode :=
      if c.isLower then .lower else if c.isUpper then .upper else mode
    if nextMode = CamelMode.lower ∧ next.isUpper then
      (acc ++ [c]) :: splitCamelGo .boundary [] (next :: rest)
    else if mode = CamelMode.upper ∧ c.isUpper ∧ next.isLower then
      acc :: splitCamelGo .boundary [c] (next :: rest)
    else
      splitCamelGo nextMode (acc ++ [c]) (next :: rest)

/-- Split a character list into maximal alphanumeric chunks (heck first splits
the input on every non-alphanumeric character). -/
def splitChunks : List Char → List (List Char)
  | [] => [[]]
  | c :: rest =>
    match splitChunks rest with
    | [] => if c.isAlphanum then [[c]] else [[], []]
    | chunk :: more =>
      if c.isAlphanum then (c :: chunk) :: more
      else [] :: chunk :: more

/-- All words of an identifier, in order, per heck's segmentation. -/
def heckWords (s : String) : List (List Char) :=
  ((splitChunks s.data).map (splitCamelGo .boundary [])).flatten

/-- A word rendered fully lowercase. -/
def lowercaseWord (w : List Char) : List Char := w.map Char.toLower

/-- A word rendered capitalized: first character uppercase, rest lowercase. -/
def capitalizeWord : List Char → List Char
  | [] => []
  | c :: rest => c.toUpper :: rest.map Char.toLower

/-- ASCII model of heck's `to_lower_camel_case`: first word lowercased,
subsequent words capitalized, joined without separator. -/
def to_lower_camel_case (s : String) : String :=
  match heckWords s with
  | [] => ""
  | w :: ws => ⟨lowercaseWord w ++ (ws.map capitalizeWord).flatten⟩

/-- ASCII model of heck's `to_upper_camel_case`: every word capitalized,
joined without separator. -/
def to_upper_camel_case (s : String) : String :=
  ⟨((heckWords s).map capitalizeWord).flatten⟩

/-- The general reserved-word set (`KEYWORDS` static in the source, verbatim,
duplicates included — membership is all that matters). -/
def KEYWORDS : List String :=
  [ "associatedtype", "class", "deinit", "enum", "extension", "fileprivate",
    "func", "import", "init", "inout", "internal", "let", "open", "operator",
    "private", "precedencegroup", "protocol", "public", "rethrows", "static",
    "struct", "subscript", "typealias", "var",
    "break", "case", "catch", "continue", "default", "defer", "do", "else",
    "fallthrough", "for", "guard", "if", "in", "repeat", "return", "throw",
    "switch", "where", "while",
    "Any", "as", "await", "catch", "false", "is", "nil", "rethrows", "self",
    "Self", "super", "throw", "throws", "true", "try" ]

/-- `quote_general_keyword`: backtick-escape a name that is in the general
reserved-word set, return it unchanged otherwise. -/
def quote_general_keyword (nm : String) : String :=
  if nm ∈ KEYWORDS then "`" ++ nm ++ "`" else nm

/-- The argument-position reserved-word set (`ARG_KEYWORDS` in the source). -/
def ARG_KEYWORDS : List String := ["inout", "var", "let"]

/-- `quote_arg_keyword`: backtick-escape a name that is in the
argument-position reserved-word set, return it unchanged otherwise. -/
def quote_arg_keyword (nm : String) : String :=
  if nm ∈ ARG_KEYWORDS then "`" ++ nm ++ "`" else nm


/-- `ObjectImpl` of `uniffi_meta` (payload of `Type::Object`'s `imp` field). -/
inductive ObjectImpl
  | Struct
  | Trait
  | CallbackTrait
deriving DecidableEq, Repr

/-- The interface-level type union (`uniffi_meta::Type`), with exactly the
constructors and payloads the source's `create_code_type` matches on.  Named
`UType` because `Type` is not available as an identifier in Lean. -/
inductive UType
  | UInt8
  | Int8
  | UInt16
  | Int16
  | UInt32
  | Int32
  | UInt64
  | Int64
  | Float32
  | Float64
  | Boolean
  | String
  | Bytes
  | Timestamp
  | Duration
  | Enum (name : String)
  | Object (name : String) (imp : ObjectImpl)
  | Record (name : String)
  | CallbackInterface (name : String)
  | Optional (inner_type : UType)
  | Sequence (inner_type : UType)
  | Map (key_type : UType) (value_type : UType)
  | External (name : String)
  | Custom (name : String) (builtin : UType)
deriving DecidableEq, Repr

/-- The capability record a `CodeType` exposes (per the spec's data model);
the source never constructs one — every `create_code_type` arm is `todo!()`. -/
structure CodeType where
  type_label : String
  canonical_name : String
  ffi_converter_name : String
deriving DecidableEq, Repr

/-- A fatal generation error: `todo` models a `todo!()` arm (tagged here by
the matched constructor, each arm being a distinct panic site in the source)
and `unimplemented` models an `unimplemented!()` arm. -/
inductive GenError
  | todo (tag : String)
  | unimplemented (desc : String)
deriving DecidableEq, Repr

/-- The ABI-level type union (`uniffi_bindgen::interface::FfiType`), with the
constructors the source's exhaustive `ffi_type_label` match covers. -/
inductive FfiType
  | Int8
  | UInt8
  | Int16
  | UInt16
  | Int32
  | UInt32
  | Int64
  | UInt64
  | Float32
  | Float64
  | Handle
  | RustArcPtr (name : String)
  | RustBuffer (meta : Option String)
  | RustCallStatus
  | ForeignBytes
  | Callback (name : String)
  | Struct (name : String)
  | Reference (inner : FfiType)
  | VoidPointer
deriving DecidableEq, Repr

/-- The unit-like oracle value (`pub struct PHPCodeOracle;`). -/
structure PHPCodeOracle
deriving DecidableEq, Repr

namespace PHPCodeOracle

/-- `PHPCodeOracle::create_code_type`: one arm per `Type` constructor, no
wildcard; in the source every arm is `todo!()`, a fatal generation panic,
modelled as an explicit error tagged by the arm taken. -/
def create_code_type (_o : PHPCodeOracle) (type_ : UType) : Except GenError CodeType :=
  match type_ with
  | .UInt8 => .error (.todo "UInt8")
  | .Int8 => .error (.todo "Int8")
  | .UInt16 => .error (.todo "UInt16")
  | .Int16 => .error (.todo "Int16")
  | .UInt32 => .error (.todo "UInt32")
  | .Int32 => .error (.todo "Int32")
  | .UInt64 => .error (.todo "UInt64")
  | .Int64 => .error (.todo "Int64")
  | .Float32 => .error (.todo "Float32")
  | .Float64 => .error (.todo "Float64")
  | .Boolean => .error (.todo "Boolean")
  | .String => .error (.todo "String")
  | .Bytes => .error (.todo "Bytes")
  | .Timestamp => .error (.todo "Timestamp")
  | .Duration => .error (.todo "Duration")
  | .Enum _ => .error (.todo "Enum")
  | .Object _ _ => .error (.todo "Object")
  | .Record _ => .error (.todo "Record")
  | .CallbackInterface _ => .error (.todo "CallbackInterface")
  | .Optional _ => .error (.todo "Optional")
  | .Sequence _ => .error (.todo "Sequence")
  | .Map _ _ => .error (.todo "Map")
  | .External _ => .error (.todo "External")
  | .Custom _ _ => .error (.todo "Custom")

/-- `PHPCodeOracle::find`: clones the type and dispatches to
`create_code_type`. -/
def find (o : PHPCodeOracle) (type_ : UType) : Except GenError CodeType :=
  o.create_code_type type_

/-- `PHPCodeOracle::class_name`. -/
def class_name (_o : PHPCodeOracle) (nm : String) : String :=
  to_upper_camel_case nm

/-- `PHPCodeOracle::fn_name`. -/
def fn_name (_o : PHPCodeOracle) (nm : String) : String :=
  to_lower_camel_case nm

/-- `PHPCodeOracle::var_name`. -/
def var_name (_o : PHPCodeOracle) (nm : String) : String :=
  to_lower_camel_case nm

/-- `PHPCodeOracle::enum_variant_name`. -/
def enum_variant_name (_o : PHPCodeOracle) (nm : String) : String :=
  to_lower_camel_case nm

/-- `PHPCodeOracle::ffi_callback_name`. -/
def ffi_callback_name (_o : PHPCodeOracle) (nm : String) : String :=
  "Uniffi" ++ to_upper_camel_case nm

/-- `PHPCodeOracle::ffi_struct_name`. -/
def ffi_struct_name (_o : PHPCodeOracle) (nm : String) : String :=
  "Uniffi" ++ to_upper_camel_case nm

/-- `PHPCodeOracle::ffi_type_label`: the wrapper-side spelling of each
`FfiType`. -/
def ffi_type_label (o : PHPCodeOracle) (ffi_type : FfiType) : String :=
  match ffi_type with
  | .Int8 => "Int8"
  | .UInt8 => "UInt8"
  | .Int16 => "Int16"
  | .UInt16 => "UInt16"
  | .Int32 => "Int32"
  | .UInt32 => "UInt32"
  | .Int64 => "Int64"
  | .UInt64 => "UInt64"
  | .Float32 => "Float"
  | .Float64 => "Double"
  | .Handle => "UInt64"
  | .RustArcPtr _ => "UnsafeMutableRawPointer"
  | .RustBuffer _ => "RustBuffer"
  | .RustCallStatus => "RustCallStatus"
  | .ForeignBytes => "ForeignBytes"
  | .Callback name => "@escaping " ++ o.ffi_callback_name name
  | .Struct name => o.ffi_struct_name name
  | .Reference inner => "UnsafeMutablePointer<" ++ o.ffi_type_label inner ++ ">"
  | .VoidPointer => "UnsafeMutableRawPointer"

/-- `PHPCodeOracle::ffi_default_value`: the sentinel written to a return slot
on the error path; the source's wildcard arm is `unimplemented!()`, a fatal
generation panic, modelled as an explicit error. -/
def ffi_default_value (_o : PHPCodeOracle) (return_type : Option FfiType) :
    Except GenError String :=
  match return_type with
  | some t =>
    match t with
    | .UInt8 | .Int8 | .UInt16 | .Int16
    | .UInt32 | .Int32 | .UInt64 | .Int64 => .ok "0"
    | .Float32 | .Float64 => .ok "0.0"
    | .RustArcPtr _ => .ok "nil"
    | .RustBuffer _ => .ok "RustBuffer.empty()"
    | _ => .error (.unimplemented "FFI return type")
  | none => .ok "0"

end PHPCodeOracle

/-- Model of `uniffi_bindgen::interface::Object` restricted to the two
accessors the source calls: `name()` and `has_callback_interface()`. -/
structure ObjectDef where
  name : String
  has_callback_interface : Bool
deriving DecidableEq, Repr

/-- `PHPCodeOracle::object_names`. -/
def PHPCodeOracle.object_names (o : PHPCodeOracle) (obj : ObjectDef) :
    String × String :=
  let class_name := o.class_name obj.name
  if obj.has_callback_interface then
    (class_name, class_name ++ "Impl")
  else
    (class_name ++ "Protocol", class_name)

namespace filters

/-- `filters::oracle()`: the shared unit oracle value. -/
def oracle : PHPCodeOracle := {}

/-- `filters::fn_name`. -/
def fn_name (nm : String) : String :=
  quote_general_keyword (oracle.fn_name nm)

/-- `filters::var_name`. -/
def var_name (nm : String) : String :=
  quote_general_keyword (oracle.var_name nm)

/-- `filters::arg_name`: note the source quotes only against the
argument-position keyword set. -/
def arg_name (nm : String) : String :=
  quote_arg_keyword (oracle.var_name nm)

/-- `filters::class_name`. -/
def class_name (nm : String) : String :=
  oracle.class_name nm

/-- `filters::ffi_type_name`. -/
def ffi_type_name (ffi_type : FfiType) : String :=
  oracle.ffi_type_label ffi_type

/-- `filters::ffi_default_value`. -/
def ffi_default_value (return_type : Option FfiType) : Except GenError String :=
  oracle.ffi_default_value return_type

/-- `filters::header_ffi_type_name`: the native-declaration (C header)
spelling of each `FfiType`. -/
def header_ffi_type_name (ffi_type : FfiType) : String :=
  match ffi_type with
  | .Int8 => "int8_t"
  | .UInt8 => "uint8_t"
  | .Int16 => "int16_t"
  | .UInt16 => "uint16_t"
  | .Int32 => "int32_t"
  | .UInt32 => "uint32_t"
  | .Int64 => "int64_t"
  | .UInt64 => "uint64_t"
  | .Float32 => "float"
  | .Float64 => "double"
  | .Handle => "uint64_t"
  | .RustArcPtr _ => "void*_Nonnull"
  | .RustBuffer _ => "RustBuffer"
  | .RustCallStatus => "RustCallStatus"
  | .ForeignBytes => "ForeignBytes"
  | .Callback name => PHPCodeOracle.ffi_callback_name {} name ++ " _Nonnull"
  | .Struct name => PHPCodeOracle.ffi_struct_name {} name
  | .Reference inner => header_ffi_type_name inner ++ "* _Nonnull"
  | .VoidPointer => "void* _Nonnull"

/-- `filters::object_names`. -/
def object_names (obj : ObjectDef) : String × String :=
  PHPCodeOracle.object_names {} obj

end filters


/-- Modelled from the spec: the `CodeType` bodies behind `canonical_name` are
`todo!()` stubs in the source, so the canonical-name scheme is taken from the
spec's rule — "kind-tagged concatenation of children's canonical names".
Character-list form, used by the decodability proof. -/
def canonicalL : UType → List Char
  | .UInt8 => "UInt8".data
  | .Int8 => "Int8".data
  | .UInt16 => "UInt16".data
  | .Int16 => "Int16".data
  | .UInt32 => "UInt32".data
  | .Int32 => "Int32".data
  | .UInt64 => "UInt64".data
  | .Int64 => "Int64".data
  | .Float32 => "Float32".data
  | .Float64 => "Float64".data
  | .Boolean => "Boolean".data
  | .String => "String".data
  | .Bytes => "Bytes".data
  | .Timestamp => "Timestamp".data
  | .Duration => "Duration".data
  | .Enum name => "Enum".data ++ name.data
  | .Object name _ => "Object".data ++ name.data
  | .Record name => "Record".data ++ name.data
  | .CallbackInterface name => "CallbackInterface".data ++ name.data
  | .Optional inner => "Optional".data ++ canonicalL inner
  | .Sequence inner => "Sequence".data ++ canonicalL inner
  | .Map key value => "Map".data ++ canonicalL key ++ canonicalL value
  | .External name => "External".data ++ name.data
  | .Custom name _ => "Custom".data ++ name.data

/-- Modelled from the spec: `canonical_name` as a string (see `canonicalL`). -/
def canonical_name_m (t : UType) : String := ⟨canonicalL t⟩

/-- The name-free fragment of `UType`: primitives and the composite
constructors `Optional`, `Sequence`, `Map` — the "nested composite shape"
the spec's injectivity property quantifies over. -/
def NameFree : UType → Bool
  | .Enum _ | .Object _ _ | .Record _ | .CallbackInterface _
  | .External _ | .Custom _ _ => false
  | .Optional inner => NameFree inner
  | .Sequence inner => NameFree inner
  | .Map key value => NameFree key && NameFree value
  | _ => true

/-- Node count of a type term, the fuel bound for the decoder. -/
def nodes : UType → Nat
  | .Optional inner => nodes inner + 1
  | .Sequence inner => nodes inner + 1
  | .Map key value => nodes key + nodes value + 1
  | .Custom _ builtin => nodes builtin + 1
  | _ => 1

/-- Strip an expected concrete tag from the front of a character list,
returning the remainder when the tag is present and `none` otherwise. -/
def stripTag : List Char → List Char → Option (List Char)
  | [], l => some l
  | _ :: _, [] => none
  | t :: ts, c :: cs => if c = t then stripTag ts cs else none

/-- Fueled decoder for the name-free fragment of the canonical-name code:
the kind tags are prefix-free, so greedy tag dispatch decodes uniquely. -/
def parseUType : Nat → List Char → Option (UType × List Char)
  | 0, _ => none
  | fuel + 1, l =>
    match stripTag "UInt8".data l with
    | some r => some (.UInt8, r)
    | none =>
    match stripTag "UInt16".data l with
    | some r => some (.UInt16, r)
    | none =>
    match stripTag "UInt32".data l with
    | some r => some (.UInt32, r)
    | none =>
    match stripTag "UInt64".data l with
    | some r => some (.UInt64, r)
    | none =>
    match stripTag "Int8".data l with
    | some r => some (.Int8, r)
    | none =>
    match stripTag "Int16".data l with
    | some r => some (.Int16, r)
    | none =>
    match stripTag "Int32".data l with
    | some r => some (.Int32, r)
    | none =>
    match stripTag "Int64".data l with
    | some r => some (.Int64, r)
    | none =>
    match stripTag "Float32".data l with
    | some r => some (.Float32, r)
    | none =>
    match stripTag "Float64".data l with
    | some r => some (.Float64, r)
    | none =>
    match stripTag "Boolean".data l with
    | some r => some (.Boolean, r)
    | none =>
    match stripTag "String".data l with
    | some r => some (.String, r)
    | none =>
    match stripTag "Bytes".data l with
    | some r => some (.Bytes, r)
    | none =>
    match stripTag "Timestamp".data l with
    | some r => some (.Timestamp, r)
    | none =>
    match stripTag "Duration".data l with
    | some r => some (.Duration, r)
    | none =>
    match stripTag "Optional".data l with
    | some r =>
      (match parseUType fuel r with
       | some (inner, rest) => some (.Optional inner, rest)
       | none => none)
    | none =>
    match stripTag "Sequence".data l with
    | some r =>
      (match parseUType fuel r with
       | some (inner, rest) => some (.Sequence inner, rest)
       | none => none)
    | none =>
    match stripTag "Map".data l with
    | some r =>
      (match parseUType fuel r with
       | some (key, rest) =>
         (match parseUType fuel rest with
          | some (value, rest2) => some (.Map key value, rest2)
          | none => none)
       | none => none)
    | none => none

/-- Does the type match `Type::Object { .. }` (the source's `matches!` test in
`ffi_error_converter_name`)? -/
def isObjectType : UType → Bool
  | .Object _ _ => true
  | _ => false

namespace filters

/-- `filters::ffi_converter_name`.  Modelled from the spec: the underlying
`CodeType::ffi_converter_name` sits behind the `todo!()` stubs of
`create_code_type`, and the spec names each type's paired conversion helper
after its canonical name. -/
def ffi_converter_name (t : UType) : String :=
  "FfiConverter" ++ canonical_name_m t

/-- `filters::ffi_error_converter_name`: takes `ffi_converter_name` and
appends `"__as_error"` exactly when the type matches `Type::Object { .. }` —
this conditional push is the source's own filter logic. -/
def ffi_error_converter_name (t : UType) : String :=
  let name := ffi_converter_name t
  if isObjectType t then name ++ "__as_error" else name

/-- `filters::canonical_name` (delegates to the `CodeType`'s canonical name;
see `canonical_name_m`). -/
def canonical_name (t : UType) : String :=
  canonical_name_m t

end filters

/-- Integer FfiType kinds: the eight fixed-width scalar integers. -/
def isScalarIntFfi : FfiType → Bool
  | .Int8 | .UInt8 | .Int16 | .UInt16
  | .Int32 | .UInt32 | .Int64 | .UInt64 => true
  | _ => false

/-- Float FfiType kinds. -/
def isFloatFfi : FfiType → Bool
  | .Float32 | .Float64 => true
  | _ => false

/-- Modelled from the spec: the "opaque non-null handle" FfiType kind — the
object pointer (`RustArcPtr`), whose native spelling is `void*_Nonnull`. -/
def isOpaqueHandleFfi : FfiType → Bool
  | .RustArcPtr _ => true
  | _ => false

/-- The owned dynamically-sized buffer kind (`RustBuffer`). -/
def isBufferFfi : FfiType → Bool
  | .RustBuffer _ => true
  | _ => false

/-- Modelled from the spec: the FfiTypes "legally usable as a return type" —
the kinds for which §4.3 prescribes a sentinel: scalar integers and floats
(zero), the opaque handle (null), and the owned buffer (empty descriptor). -/
def legalReturnFfi (t : FfiType) : Bool :=
  isScalarIntFfi t || isFloatFfi t || isOpaqueHandleFfi t || isBufferFfi t

/-- An abstract binary layout shared by the two sides of the FFI boundary. -/
inductive Layout
  | int (width : Nat) (signed : Bool)
  | float (width : Nat)
  | pointer
  | rustBuffer
  | callStatus
  | foreignBytes
  | funPtr (name : String)
  | structNamed (name : String)
deriving DecidableEq, Repr

/-- Modelled from the spec: the binary layout denoted by each wrapper-side
(Swift) type spelling — fixed-width integers of matching signedness, IEEE
floats, pointer-shaped values, the shared compound record types, function
pointers (tagged by callback type name), and the generated `Uniffi…` structs. -/
inductive SwiftDenotes : String → Layout → Prop
  | int8 : SwiftDenotes "Int8" (.int 8 true)
  | uint8 : SwiftDenotes "UInt8" (.int 8 false)
  | int16 : SwiftDenotes "Int16" (.int 16 true)
  | uint16 : SwiftDenotes "UInt16" (.int 16 false)
  | int32 : SwiftDenotes "Int32" (.int 32 true)
  | uint32 : SwiftDenotes "UInt32" (.int 32 false)
  | int64 : SwiftDenotes "Int64" (.int 64 true)
  | uint64 : SwiftDenotes "UInt64" (.int 64 false)
  | float32 : SwiftDenotes "Float" (.float 32)
  | float64 : SwiftDenotes "Double" (.float 64)
  | rawPointer : SwiftDenotes "UnsafeMutableRawPointer" .pointer
  | mutPointer (s : String) :
      SwiftDenotes ("UnsafeMutablePointer<" ++ s ++ ">") .pointer
  | rustBuffer : SwiftDenotes "RustBuffer" .rustBuffer
  | callStatus : SwiftDenotes "RustCallStatus" .callStatus
  | foreignBytes : SwiftDenotes "ForeignBytes" .foreignBytes
  | escapingCallback (f : String) :
      SwiftDenotes ("@escaping " ++ f) (.funPtr f)
  | uniffiStruct (n : String) :
      SwiftDenotes ("Uniffi" ++ n) (.structNamed ("Uniffi" ++ n))

/-- Modelled from the spec: the binary layout denoted by each
native-declaration (C header) type spelling. -/
inductive CDenotes : String → Layout → Prop
  | int8 : CDenotes "int8_t" (.int 8 true)
  | uint8 : CDenotes "uint8_t" (.int 8 false)
  | int16 : CDenotes "int16_t" (.int 16 true)
  | uint16 : CDenotes "uint16_t" (.int 16 false)
  | int32 : CDenotes "int32_t" (.int 32 true)
  | uint32 : CDenotes "uint32_t" (.int 32 false)
  | int64 : CDenotes "int64_t" (.int 64 true)
  | uint64 : CDenotes "uint64_t" (.int 64 false)
  | float32 : CDenotes "float" (.float 32)
  | float64 : CDenotes "double" (.float 64)
  | arcPointer : CDenotes "void*_Nonnull" .pointer
  | voidPointer : CDenotes "void* _Nonnull" .pointer
  | refPointer (s : String) : CDenotes (s ++ "* _Nonnull") .pointer
  | rustBuffer : CDenotes "RustBuffer" .rustBuffer
  | callStatus : CDenotes "RustCallStatus" .callStatus
  | foreignBytes : CDenotes "ForeignBytes" .foreignBytes
  | nonnullCallback (f : String) : CDenotes (f ++ " _Nonnull") (.funPtr f)
  | uniffiStruct (n : String) :
      CDenotes ("Uniffi" ++ n) (.structNamed ("Uniffi" ++ n))

/-- `t` is the fixed-width integer FfiType of the given width and
signedness. -/
def IntKindFfi (t : FfiType) (width : Nat) (signed : Bool) : Prop :=
  match t with
  | .Int8 => width = 8 ∧ signed = true
  | .UInt8 => width = 8 ∧ signed = false
  | .Int16 => width = 16 ∧ signed = true
  | .UInt16 => width = 16 ∧ signed = false
  | .Int32 => width = 32 ∧ signed = true
  | .UInt32 => width = 32 ∧ signed = false
  | .Int64 => width = 64 ∧ signed = true
  | .UInt64 => width = 64 ∧ signed = false
  | _ => False

/-- The one mutable per-run value in the source: the contents of
`TypeRenderer.include_once_names` (a `RefCell<HashSet<String>>`). -/
abbrev GenState := List String

/-- `find` threaded through the mutable generation state: the source method
takes only `&self` and the type and never borrows the `RefCell`, so the state
passes through untouched. -/
def findS (o : PHPCodeOracle) (t : UType) (st : GenState) :
    Except GenError CodeType × GenState :=
  (o.find t, st)

/-- `class_name` threaded through the mutable generation state. -/
def class_nameS (o : PHPCodeOracle) (nm : String) (st : GenState) :
    String × GenState :=
  (o.class_name nm, st)

/-- `fn_name` threaded through the mutable generation state. -/
def fn_nameS (o : PHPCodeOracle) (nm : String) (st : GenState) :
    String × GenState :=
  (o.fn_name nm, st)

/-- `var_name` threaded through the mutable generation state. -/
def var_nameS (o : PHPCodeOracle) (nm : String) (st : GenState) :
    String × GenState :=
  (o.var_name nm, st)

/-- `enum_variant_name` threaded through the mutable generation state. -/
def enum_variant_nameS (o : PHPCodeOracle) (nm : String) (st : GenState) :
    String × GenState :=
  (o.enum_variant_name nm, st)

/-- `ffi_type_label` threaded through the mutable generation state. -/
def ffi_type_labelS (o : PHPCodeOracle) (t : FfiType) (st : GenState) :
    String × GenState :=
  (o.ffi_type_label t, st)

/-- `object_names` threaded through the mutable generation state. -/
def object_namesS (o : PHPCodeOracle) (obj : ObjectDef) (st : GenState) :
    (String × String) × GenState :=
  (o.object_names obj, st)

/-- `CustomTypeConfig` (template expressions modelled as strings). -/
structure CustomTypeConfig where
  imports : Option (List String)
  type_name : Option String
  into_custom : String
  from_custom : String
deriving DecidableEq, Repr

/-- `Config` of the PHP backend. -/
structure Config where
  module_name : Option String
  cdylib_name : Option String
  custom_types : List (String × CustomTypeConfig)
  external_packages : List (String × String)
deriving DecidableEq, Repr

/-- `ComponentInterface` restricted to the accessor the source uses,
`namespace()` (field renamed because `namespace` is reserved in Lean). -/
structure ComponentInterface where
  ci_namespace : String
deriving DecidableEq, Repr

/-- `uniffi_bindgen::Component<Config>`. -/
structure Component where
  ci : ComponentInterface
  config : Config
deriving DecidableEq, Repr

/-- `GenerationSettings` restricted to the field the source uses. -/
structure GenerationSettings where
  out_dir : String
deriving DecidableEq, Repr

/-- `Config::module_name()`: unwraps the option; `None` is the
`expect("module name should have been set in update_component_configs")`
panic, modelled as an error. -/
def Config.moduleName (c : Config) : Except String String :=
  match c.module_name with
  | some s => .ok s
  | none => .error "module name should have been set in update_component_configs"

/-- `BindingGeneratorPHP::update_component_configs`: for each component,
`get_or_insert_with` the interface namespace into `config.module_name`. -/
def update_component_configs (components : List Component) : List Component :=
  components.map fun c =>
    { c with
      config :=
        { c.config with
          module_name := some (c.config.module_name.getD c.ci.ci_namespace) } }

/-- The output-path computation of `BindingGeneratorPHP::write_bindings`:
the source loops over the components in order, unwraps `module_name()` and
writes `<out_dir>/<module_name>.php`, propagating the first failure; the
rendered file contents come from templates outside `src/` and are abstracted
away. -/
def write_bindings_paths (settings : GenerationSettings) :
    List Component → Except String (List String)
  | [] => .ok []
  | c :: rest =>
    match c.config.moduleName with
    | .ok m =>
      match write_bindings_paths settings rest with
      | .ok paths => .ok ((settings.out_dir ++ "/" ++ m ++ ".php") :: paths)
      | .error e => .error e
    | .error e => .error e

theorem nodes_pos (t : UType) : 1 ≤ nodes t := by
  cases t <;> simp only [nodes] <;> omega

set_option maxHeartbeats 800000 in
theorem parse_canonicalL :
    ∀ (t : UType), NameFree t = true →
    ∀ (fuel : Nat) (r : List Char), nodes t ≤ fuel →
      parseUType fuel (canonicalL t ++ r) = some (t, r) := by
  intro t
  induction t with
  | UInt8 =>
    intro _ fuel r h
    cases fuel with
    | zero => simp only [nodes] at h; omega
    | succ m => rfl
  | Int8 =>
    intro _ fuel r h
    cases fuel with
    | zero => simp only [nodes] at h; omega
    | succ m => rfl
  | UInt16 =>
    intro _ fuel r h
    cases fuel with
    | zero => simp only [nodes] at h; omega
    | succ m => rfl
  | Int16 =>
    intro _ fuel r h
    cases fuel with
    | zero => simp only [nodes] at h; omega
    | succ m => rfl
  | UInt32 =>
    intro _ fuel r h
    cases fuel with
    | zero => simp only [nodes] at h; omega
    | succ m => rfl
  | Int32 =>
    intro _ fuel r h
    cases fuel with
    | zero => simp only [nodes] at h; omega
    | succ m => rfl
  | UInt64 =>
    intro _ fuel r h
    cases fuel with
    | zero => simp only [nodes] at h; omega
    | succ m => rfl
  | Int64 =>
    intro _ fuel r h
    cases fuel with
    | zero => simp only [nodes] at h; omega
    | succ m => rfl
  | Float32 =>
    intro _ fuel r h
    cases fuel with
    | zero => simp only [nodes] at h; omega
    | succ m => rfl
  | Float64 =>
    intro _ fuel r h
    cases fuel with
    | zero => simp only [nodes] at h; omega
    | succ m => rfl
  | Boolean =>
    intro _ fuel r h
    cases fuel with
    | zero => simp only [nodes] at h; omega
    | succ m => rfl
  | String =>
    intro _ fuel r h
    cases fuel with
    | zero => simp only [nodes] at h; omega
    | succ m => rfl
  | Bytes =>
    intro _ fuel r h
    cases fuel with
    | zero => simp only [nodes] at h; omega
    | succ m => rfl
  | Timestamp =>
    intro _ fuel r h
    cases fuel with
    | zero => simp only [nodes] at h; omega
    | succ m => rfl
  | Duration =>
    intro _ fuel r h
    cases fuel with
    | zero => simp only [nodes] at h; omega
    | succ m => rfl
  | Enum name =>
    intro hnf
    simp [NameFree] at hnf
  | Object name imp =>
    intro hnf
    simp [NameFree] at hnf
  | Record name =>
    intro hnf
    simp [NameFree] at hnf
  | CallbackInterface name =>
    intro hnf
    simp [NameFree] at hnf
  | External name =>
    intro hnf
    simp [NameFree] at hnf
  | Custom name builtin ih =>
    intro hnf
    simp [NameFree] at hnf
  | Optional inner ih =>
    intro hnf fuel r h
    have hin : NameFree inner = true := by simpa [NameFree] using hnf
    cases fuel with
    | zero => simp only [nodes] at h; omega
    | succ m =>
      have hle : nodes inner ≤ m := by simp only [nodes] at h; omega
      have hstep : parseUType (m + 1) (canonicalL (UType.Optional inner) ++ r) =
          (match parseUType m (canonicalL inner ++ r) with
           | some (t, rest) => some (UType.Optional t, rest)
           | none => none) := rfl
      rw [hstep, ih hin m r hle]
  | Sequence inner ih =>
    intro hnf fuel r h
    have hin : NameFree inner = true := by simpa [NameFree] using hnf
    cases fuel with
    | zero => simp only [nodes] at h; omega
    | succ m =>
      have hle : nodes inner ≤ m := by simp only [nodes] at h; omega
      have hstep : parseUType (m + 1) (canonicalL (UType.Sequence inner) ++ r) =
          (match parseUType m (canonicalL inner ++ r) with
           | some (t, rest) => some (UType.Sequence t, rest)
           | none => none) := rfl
      rw [hstep, ih hin m r hle]
  | Map key value ihk ihv =>
    intro hnf fuel r h
    have hkv : NameFree key = true ∧ NameFree value = true := by
      simpa [NameFree, Bool.and_eq_true] using hnf
    cases fuel with
    | zero => simp only [nodes] at h; omega
    | succ m =>
      have hpk := nodes_pos key
      have hpv := nodes_pos value
      have hlek : nodes key ≤ m := by simp only [nodes] at h; omega
      have hlev : nodes value ≤ m := by simp only [nodes] at h; omega
      have hstep : parseUType (m + 1) (canonicalL (UType.Map key value) ++ r) =
          (match parseUType m ((canonicalL key ++ canonicalL value) ++ r) with
           | some (k, rest) =>
             (match parseUType m rest with
              | some (v, rest2) => some (UType.Map k v, rest2)
              | none => none)
           | none => none) := rfl
      rw [hstep, List.append_assoc]
      simp only [ihk hkv.1 m (canonicalL value ++ r) hlek, ihv hkv.2 m r hlev]

theorem canonicalL_inj_nameFree (t1 t2 : UType) (h1 : NameFree t1 = true)
    (h2 : NameFree t2 = true) (heq : canonicalL t1 = canonicalL t2) :
    t1 = t2 := by
  have p1 := parse_canonicalL t1 h1 (nodes t1 + nodes t2) [] (by omega)
  have p2 := parse_canonicalL t2 h2 (nodes t1 + nodes t2) [] (by omega)
  rw [List.append_nil] at p1 p2
  rw [heq, p2] at p1
  simp only [Option.some.injEq, Prod.mk.injEq] at p1
  exact p1.1.symm

theorem self_ne_append_right (s t : String) (ht : t.data ≠ []) :
    s ≠ s ++ t := by
  intro h
  have hd : s.data = s.data ++ t.data := congrArg String.data h
  have hlen := congrArg List.length hd
  rw [List.length_append] at hlen
  have hzero : t.data.length = 0 := by omega
  exact ht (List.length_eq_zero.mp hzero)

theorem append_right_ne_self (s t : String) (ht : t.data ≠ []) :
    s ++ t ≠ s :=
  fun h => self_ne_append_right s t ht h.symm

/-- Claim C1: for every `Type` constructor, the Type Oracle's `find` takes a
dedicated match arm and yields an explicit fatal generation error (a
`todo!()` panic at a per-arm source location) — there is no wildcard arm, no
silent fallback, and no undocumented failure path; in the current source no
constructor yields a successful `CodeType` mapping. -/
theorem c1_find_total_fatal (o : PHPCodeOracle) (t : UType) :
    ∃ tag, o.find t = Except.error (GenError.todo tag) := by
  cases t <;> exact ⟨_, rfl⟩

/-- Claim C2: the canonical-name scheme (modelled from the spec, the
`CodeType` bodies being `todo!()` stubs) is injective over nested composite
shape — on the name-free fragment (primitives, `Optional`, `Sequence`,
`Map`), distinct types never collapse to the same canonical name — and the
three spotlighted nestings `Sequence<Optional<String>>`,
`Optional<Sequence<String>>` and `Sequence<String>` get pairwise-distinct
canonical names. -/
theorem c2_canonical_name_injective :
    (∀ t1 t2 : UType, NameFree t1 = true → NameFree t2 = true →
      canonical_name_m t1 = canonical_name_m t2 → t1 = t2) ∧
    (canonical_name_m (.Sequence (.Optional .String)) ≠
        canonical_name_m (.Optional (.Sequence .String)) ∧
      canonical_name_m (.Sequence (.Optional .String)) ≠
        canonical_name_m (.Sequence .String) ∧
      canonical_name_m (.Optional (.Sequence .String)) ≠
        canonical_name_m (.Sequence .String)) := by
  constructor
  · intro t1 t2 h1 h2 heq
    have hdata : canonicalL t1 = canonicalL t2 := congrArg String.data heq
    exact canonicalL_inj_nameFree t1 t2 h1 h2 hdata
  · refine ⟨by decide, by decide, by decide⟩

theorem c2_canonical_name_injective_witness :
    NameFree (UType.Sequence UType.String) = true ∧
    UType.Sequence UType.String = UType.Sequence UType.String :=
  ⟨by decide,
    c2_canonical_name_injective.1 (UType.Sequence UType.String)
      (UType.Sequence UType.String) (by decide) (by decide) rfl⟩

/-- Claim C3: `ffi_default_value` supplies the prescribed sentinel for every
FfiType legally usable as a return type — `0` for the scalar integers, `0.0`
for the floats, `nil` for the opaque object handle, the empty-but-valid
`RustBuffer.empty()` for the owned buffer — and fails generation (the
`unimplemented!()` arm) for every other kind rather than silently
substituting a value. -/
theorem c3_ffi_default_value_total_on_legal (o : PHPCodeOracle) (t : FfiType) :
    (isScalarIntFfi t = true →
      o.ffi_default_value (some t) = Except.ok "0") ∧
    (isFloatFfi t = true →
      o.ffi_default_value (some t) = Except.ok "0.0") ∧
    (isOpaqueHandleFfi t = true →
      o.ffi_default_value (some t) = Except.ok "nil") ∧
    (isBufferFfi t = true →
      o.ffi_default_value (some t) = Except.ok "RustBuffer.empty()") ∧
    (legalReturnFfi t = false →
      ∃ e, o.ffi_default_value (some t) = Except.error e) := by
  cases t <;>
    refine ⟨?_, ?_, ?_, ?_, ?_⟩ <;> intro h <;>
      first
        | rfl
        | exact ⟨GenError.unimplemented "FFI return type", rfl⟩
        | simp [isScalarIntFfi, isFloatFfi, isOpaqueHandleFfi, isBufferFfi,
            legalReturnFfi] at h

theorem c3_ffi_default_value_total_on_legal_witness :
    isScalarIntFfi FfiType.Int8 = true ∧
    PHPCodeOracle.ffi_default_value {} (some FfiType.Int8) = Except.ok "0" ∧
    legalReturnFfi FfiType.Handle = false ∧
    (∃ e, PHPCodeOracle.ffi_default_value {} (some FfiType.Handle) =
      Except.error e) :=
  ⟨rfl, (c3_ffi_default_value_total_on_legal {} FfiType.Int8).1 rfl, rfl,
    (c3_ffi_default_value_total_on_legal {} FfiType.Handle).2.2.2.2 rfl⟩

/-- Claim C4: for every `FfiType`, the wrapper-side spelling
(`ffi_type_label`) and the native-declaration spelling
(`header_ffi_type_name`) denote one and the same binary layout; in
particular each fixed-width integer kind maps on both sides to an integer
type of exactly that width and signedness. -/
theorem c4_ffi_layout_agreement :
    (∀ (o : PHPCodeOracle) (t : FfiType), ∃ L : Layout,
      SwiftDenotes (o.ffi_type_label t) L ∧
      CDenotes (filters.header_ffi_type_name t) L) ∧
    (∀ (o : PHPCodeOracle) (t : FfiType) (w : Nat) (s : Bool),
      IntKindFfi t w s →
        SwiftDenotes (o.ffi_type_label t) (Layout.int w s) ∧
        CDenotes (filters.header_ffi_type_name t) (Layout.int w s)) := by
  constructor
  · intro o t
    cases t with
    | Int8 => exact ⟨Layout.int 8 true, SwiftDenotes.int8, CDenotes.int8⟩
    | UInt8 => exact ⟨Layout.int 8 false, SwiftDenotes.uint8, CDenotes.uint8⟩
    | Int16 => exact ⟨Layout.int 16 true, SwiftDenotes.int16, CDenotes.int16⟩
    | UInt16 => exact ⟨Layout.int 16 false, SwiftDenotes.uint16, CDenotes.uint16⟩
    | Int32 => exact ⟨Layout.int 32 true, SwiftDenotes.int32, CDenotes.int32⟩
    | UInt32 => exact ⟨Layout.int 32 false, SwiftDenotes.uint32, CDenotes.uint32⟩
    | Int64 => exact ⟨Layout.int 64 true, SwiftDenotes.int64, CDenotes.int64⟩
    | UInt64 => exact ⟨Layout.int 64 false, SwiftDenotes.uint64, CDenotes.uint64⟩
    | Float32 => exact ⟨Layout.float 32, SwiftDenotes.float32, CDenotes.float32⟩
    | Float64 => exact ⟨Layout.float 64, SwiftDenotes.float64, CDenotes.float64⟩
    | Handle => exact ⟨Layout.int 64 false, SwiftDenotes.uint64, CDenotes.uint64⟩
    | RustArcPtr name =>
      exact ⟨Layout.pointer, SwiftDenotes.rawPointer, CDenotes.arcPointer⟩
    | RustBuffer meta =>
      exact ⟨Layout.rustBuffer, SwiftDenotes.rustBuffer, CDenotes.rustBuffer⟩
    | RustCallStatus =>
      exact ⟨Layout.callStatus, SwiftDenotes.callStatus, CDenotes.callStatus⟩
    | ForeignBytes =>
      exact ⟨Layout.foreignBytes, SwiftDenotes.foreignBytes,
        CDenotes.foreignBytes⟩
    | Callback name =>
      exact ⟨Layout.funPtr (PHPCodeOracle.ffi_callback_name o name),
        SwiftDenotes.escapingCallback _, CDenotes.nonnullCallback _⟩
    | Struct name =>
      exact ⟨Layout.structNamed ("Uniffi" ++ to_upper_camel_case name),
        SwiftDenotes.uniffiStruct _, CDenotes.uniffiStruct _⟩
    | Reference inner =>
      exact ⟨Layout.pointer, SwiftDenotes.mutPointer _, CDenotes.refPointer _⟩
    | VoidPointer =>
      exact ⟨Layout.pointer, SwiftDenotes.rawPointer, CDenotes.voidPointer⟩
  · intro o t w s h
    cases t <;>
      first
        | exact h.elim
        | (obtain ⟨rfl, rfl⟩ := h
           first
             | exact ⟨SwiftDenotes.int8, CDenotes.int8⟩
             | exact ⟨SwiftDenotes.uint8, CDenotes.uint8⟩
             | exact ⟨SwiftDenotes.int16, CDenotes.int16⟩
             | exact ⟨SwiftDenotes.uint16, CDenotes.uint16⟩
             | exact ⟨SwiftDenotes.int32, CDenotes.int32⟩
             | exact ⟨SwiftDenotes.uint32, CDenotes.uint32⟩
             | exact ⟨SwiftDenotes.int64, CDenotes.int64⟩
             | exact ⟨SwiftDenotes.uint64, CDenotes.uint64⟩)

theorem c4_ffi_layout_agreement_witness :
    IntKindFfi FfiType.Int16 16 true ∧
    SwiftDenotes (PHPCodeOracle.ffi_type_label {} FfiType.Int16)
      (Layout.int 16 true) ∧
    CDenotes (filters.header_ffi_type_name FfiType.Int16)
      (Layout.int 16 true) :=
  ⟨⟨rfl, rfl⟩,
    (c4_ffi_layout_agreement.2 {} FfiType.Int16 16 true ⟨rfl, rfl⟩).1,
    (c4_ffi_layout_agreement.2 {} FfiType.Int16 16 true ⟨rfl, rfl⟩).2⟩

/-- Claim C5 counterexample: the reserved word `Any` is case-converted to
`any` before the keyword check, so `fn_name`/`var_name` return it raw and
unescaped — byte-identical to the rendering of the legitimately-named,
non-reserved identifier `any`; the claimed escaping and distinguishability
fail. -/
theorem c5_keyword_escaping_cex :
    "Any" ∈ KEYWORDS ∧
    filters.fn_name "Any" = "any" ∧
    filters.var_name "Any" = "any" ∧
    "any" ∉ KEYWORDS ∧
    filters.fn_name "any" = "any" := by
  refine ⟨by decide, by decide, by decide, by decide, by decide⟩

/-- Claim C5 amended: `fn_name` and `var_name` escape the lower-camel-case
form of the identifier when that converted form is in the reserved set
(wrapping it in backticks, from which the converted name is recoverable);
because the check runs after case conversion, the reserved word `Any`
(converted to the non-reserved `any`) is returned unescaped, and a
non-reserved identifier such as `IF` (converted to the reserved `if`) is
returned escaped. -/
theorem c5_keyword_escaping_amended :
    (∀ nm : String, filters.fn_name nm =
      (if to_lower_camel_case nm ∈ KEYWORDS then
        "`" ++ to_lower_camel_case nm ++ "`"
      else to_lower_camel_case nm)) ∧
    (∀ nm : String, filters.var_name nm =
      (if to_lower_camel_case nm ∈ KEYWORDS then
        "`" ++ to_lower_camel_case nm ++ "`"
      else to_lower_camel_case nm)) ∧
    filters.fn_name "IF" = "`if`" ∧
    filters.fn_name "Any" = "any" := by
  refine ⟨fun nm => rfl, fun nm => rfl, by decide, by decide⟩

/-- Claim C6 counterexample: `arg_name` checks only the argument-position
keyword set `{inout, var, let}`, so the general reserved word `if` is
rendered raw and unescaped in argument position. -/
theorem c6_arg_name_cex :
    "if" ∈ KEYWORDS ∧ filters.arg_name "if" = "if" := by
  refine ⟨by decide, by decide⟩

/-- Claim C6 amended: `arg_name` escapes an identifier exactly when its
lower-camel-case form is in the argument-position set `{inout, var, let}`
(each of which it backtick-escapes); a general reserved word outside that
set, such as `if`, is returned as its raw lower-camel form. -/
theorem c6_arg_name_amended :
    (∀ nm : String, filters.arg_name nm =
      (if to_lower_camel_case nm ∈ ARG_KEYWORDS then
        "`" ++ to_lower_camel_case nm ++ "`"
      else to_lower_camel_case nm)) ∧
    filters.arg_name "inout" = "`inout`" ∧
    filters.arg_name "var" = "`var`" ∧
    filters.arg_name "let" = "`let`" ∧
    filters.arg_name "if" = "if" := by
  refine ⟨fun nm => rfl, by decide, by decide, by decide, by decide⟩

/-- Claim C7 counterexample: an object without callback-interface support
(no foreign implementation) still gets two distinct names,
`("FooProtocol", "Foo")` — so `object_names` does not return distinct names
*exactly when* the object supports a foreign implementation. -/
theorem c7_object_names_cex :
    PHPCodeOracle.object_names {} ⟨"Foo", false⟩ = ("FooProtocol", "Foo") ∧
    ("FooProtocol" : String) ≠ "Foo" ∧
    (ObjectDef.mk "Foo" false).has_callback_interface = false := by
  refine ⟨by decide, by decide, by decide⟩

/-- Claim C7 amended: `object_names` always returns two distinct names; the
*bifurcation in shape* — not distinctness — tracks foreign-implementation
support: with callback-interface support the pair is
(class-name, class-name ++ "Impl") (contract name and default native
implementation name), otherwise it is (class-name ++ "Protocol", class-name)
(protocol name and concrete call-site name). -/
theorem c7_object_names_amended (o : PHPCodeOracle) (obj : ObjectDef) :
    (o.object_names obj).1 ≠ (o.object_names obj).2 ∧
    o.object_names obj =
      (if obj.has_callback_interface then
        (o.class_name obj.name, o.class_name obj.name ++ "Impl")
      else (o.class_name obj.name ++ "Protocol", o.class_name obj.name)) := by
  refine ⟨?_, rfl⟩
  cases h : obj.has_callback_interface with
  | true =>
    simp only [PHPCodeOracle.object_names, h, if_true]
    exact self_ne_append_right _ "Impl" (by decide)
  | false =>
    simp only [PHPCodeOracle.object_names, h, if_false]
    exact append_right_ne_self _ "Protocol" (by decide)

/-- Claim C8: every lookup is deterministic — a pure function of its
argument alone: the result is unchanged across different oracle instances
and across any two states of the sole mutable per-run value (the rendered
-helpers dedup set), and no lookup mutates that state. -/
theorem c8_lookup_determinism (o o' : PHPCodeOracle) (st st' : GenState)
    (t : UType) (nm : String) (ft : FfiType) (obj : ObjectDef) :
    (findS o t st).1 = (findS o' t st').1 ∧ (findS o t st).2 = st ∧
    (class_nameS o nm st).1 = (class_nameS o' nm st').1 ∧
    (class_nameS o nm st).2 = st ∧
    (fn_nameS o nm st).1 = (fn_nameS o' nm st').1 ∧
    (fn_nameS o nm st).2 = st ∧
    (var_nameS o nm st).1 = (var_nameS o' nm st').1 ∧
    (var_nameS o nm st).2 = st ∧
    (enum_variant_nameS o nm st).1 = (enum_variant_nameS o' nm st').1 ∧
    (enum_variant_nameS o nm st).2 = st ∧
    (ffi_type_labelS o ft st).1 = (ffi_type_labelS o' ft st').1 ∧
    (ffi_type_labelS o ft st).2 = st ∧
    (object_namesS o obj st).1 = (object_namesS o' obj st').1 ∧
    (object_namesS o obj st).2 = st := by
  exact ⟨rfl, rfl, rfl, rfl, rfl, rfl, rfl, rfl, rfl, rfl, rfl, rfl, rfl, rfl⟩

/-- Claim C9: `ffi_error_converter_name` equals `ffi_converter_name` with
the suffix `"__as_error"` appended when and only when the type is an
`Object` (in which case the two names differ); for every non-`Object` type
the two names are identical. -/
theorem c9_ffi_error_converter_name (t : UType) :
    (isObjectType t = true →
      filters.ffi_error_converter_name t =
        filters.ffi_converter_name t ++ "__as_error" ∧
      filters.ffi_error_converter_name t ≠ filters.ffi_converter_name t) ∧
    (isObjectType t = false →
      filters.ffi_error_converter_name t = filters.ffi_converter_name t) := by
  constructor
  · intro h
    constructor
    · simp [filters.ffi_error_converter_name, h]
    · simp only [filters.ffi_error_converter_name, h, if_true]
      exact append_right_ne_self _ "__as_error" (by decide)
  · intro h
    simp [filters.ffi_error_converter_name, h]

theorem c9_ffi_error_converter_name_witness :
    isObjectType (UType.Object "Foo" ObjectImpl.Struct) = true ∧
    filters.ffi_error_converter_name (UType.Object "Foo" ObjectImpl.Struct) =
      filters.ffi_converter_name (UType.Object "Foo" ObjectImpl.Struct) ++
        "__as_error" ∧
    isObjectType UType.UInt8 = false ∧
    filters.ffi_error_converter_name UType.UInt8 =
      filters.ffi_converter_name UType.UInt8 :=
  ⟨rfl,
    ((c9_ffi_error_converter_name (UType.Object "Foo" ObjectImpl.Struct)).1
      rfl).1,
    rfl, (c9_ffi_error_converter_name UType.UInt8).2 rfl⟩

/-- Claim C10: after `update_component_configs`, every component's config has
a defined module name (the configured one if present, else the interface
namespace), so `Config::module_name()` succeeds — its "module name should
have been set" failure branch is unreachable — and the write-bindings pass
over those components resolves every output path. -/
theorem c10_module_name_defined_after_update (components : List Component) :
    (∀ c ∈ update_component_configs components,
      ∃ s, c.config.moduleName = Except.ok s) ∧
    (∀ settings : GenerationSettings,
      ∃ paths, write_bindings_paths settings
        (update_component_configs components) = Except.ok paths) := by
  constructor
  · intro c hc
    simp only [update_component_configs, List.mem_map] at hc
    obtain ⟨c0, _, rfl⟩ := hc
    exact ⟨_, rfl⟩
  · intro settings
    induction components with
    | nil => exact ⟨[], rfl⟩
    | cons a l ih =>
      obtain ⟨paths, hpaths⟩ := ih
      refine ⟨(settings.out_dir ++ "/" ++
        (a.config.module_name.getD a.ci.ci_namespace) ++ ".php") :: paths, ?_⟩
      simp only [update_component_configs, List.map_cons] at hpaths ⊢
      simp only [write_bindings_paths, Config.moduleName, hpaths]

theorem c10_module_name_defined_after_update_witness :
    (∃ s, (Component.mk ⟨"greet"⟩
        ⟨some "greet", none, [], []⟩).config.moduleName = Except.ok s) ∧
    (∃ paths, write_bindings_paths ⟨"out"⟩
      (update_component_configs
        [Component.mk ⟨"greet"⟩ ⟨none, none, [], []⟩]) = Except.ok paths) :=
  ⟨(c10_module_name_defined_after_update
      [Component.mk ⟨"greet"⟩ ⟨none, none, [], []⟩]).1
    (Component.mk ⟨"greet"⟩ ⟨some "greet", none, [], []⟩) (by decide),
   (c10_module_name_defined_after_update
      [Component.mk ⟨"greet"⟩ ⟨none, none, [], []⟩]).2 ⟨"out"⟩⟩
